import Mathlib

/-!
Shallow embedding of the client-side reliability stack of the order service:
the retry executor with jittered exponential backoff and the bulkhead
(internal/reliability/retry.go), the circuit breaker wrapper
(internal/reliability/circuit_breaker.go), the idempotency store
(order-service/cmd/main.go) and the order orchestrator
(internal/service, src/unnamed/part_000).

Machine integers and Go `time.Duration` values are embedded as `Nat`
nanosecond counts; Go `float64` arithmetic in the backoff calculator is
embedded as exact rational arithmetic over `ℚ`.
-/

namespace RelOrders

/-- Go `error` values that flow through the stack, tagged by provenance. -/
inductive GoErr where
  | transport
  | httpStatus (code : Nat)
  | retryCancelled
  | retryExhausted (inner : GoErr)
  | openState
  | tooManyProbes
  | breakerOpenWrapped (inner : GoErr)
  | bulkheadRejected
  | paymentFailed (inner : GoErr)
  | persistFailed (inner : GoErr)
  deriving DecidableEq, Repr

/-- A Go `*http.Response`, reduced to the only field the stack inspects. -/
structure HTTPResponse where
  statusCode : Nat
  deriving DecidableEq, Repr

/-- The `(resp, err)` pair returned by the attempt function
`fn(ctx) (*http.Response, error)`; both components may be present at once,
as `doPaymentRequest` returns the response together with an error. -/
structure CallRes where
  resp : Option HTTPResponse
  err : Option GoErr
  deriving DecidableEq, Repr

/-- `RetryConfig` from retry.go; durations in nanoseconds as rationals. -/
structure RetryConfig where
  MaxAttempts : Nat
  InitialBackoff : ℚ
  MaxBackoff : ℚ
  BackoffMultiple : ℚ
  JitterFraction : ℚ
  deriving DecidableEq, Repr

/-- `DefaultRetryConfig` from retry.go: 3 attempts, 50ms, 1s, 2.0, 0.3. -/
def DefaultRetryConfig : RetryConfig :=
  { MaxAttempts := 3, InitialBackoff := 50000000, MaxBackoff := 1000000000,
    BackoffMultiple := 2, JitterFraction := 3/10 }

/-- retry.go line 101: `initialBackoff * (multiple ^ attempt)`. -/
def rawBackoff (cfg : RetryConfig) (attempt : Nat) : ℚ :=
  cfg.InitialBackoff * cfg.BackoffMultiple ^ attempt

/-- retry.go lines 104 to 106: the exponential backoff capped at `MaxBackoff`. -/
def nominalBackoff (cfg : RetryConfig) (attempt : Nat) : ℚ :=
  if rawBackoff cfg attempt > cfg.MaxBackoff then cfg.MaxBackoff else rawBackoff cfg attempt

/-- `calculateBackoff` from retry.go lines 99 to 119; `r` stands for the
value drawn by `rand.Float64()`, which lies in `[0, 1)`. -/
def calculateBackoff (cfg : RetryConfig) (attempt : Nat) (r : ℚ) : ℚ :=
  let backoff := nominalBackoff cfg attempt
  let jitterRange := backoff * cfg.JitterFraction
  let jitter := r * 2 * jitterRange - jitterRange
  let backoff2 := backoff + jitter
  if backoff2 < 0 then 0 else backoff2

/-- The success test at retry.go line 51:
`lastErr == nil && resp != nil && resp.StatusCode < 500 && resp.StatusCode != 429`. -/
def isRetrySuccess (c : CallRes) : Bool :=
  c.err.isNone &&
    (match c.resp with
     | some r => decide (r.statusCode < 500) && decide (r.statusCode ≠ 429)
     | none => false)

/-- The return at retry.go lines 91 to 94 once the loop has exhausted all
attempts: a wrapped error when the last error was non-nil, otherwise the
last response together with a nil error. -/
def exhaustResult (last : CallRes) : CallRes :=
  match last.err with
  | some e => { resp := none, err := some (.retryExhausted e) }
  | none => { resp := last.resp, err := none }

/-- The loop of `RetryableHTTPCall` (retry.go lines 43 to 85). `fn a` is the
outcome of the call made on attempt `a`; `canc a = true` means the request
context is cancelled during the backoff sleep that follows attempt `a`.
`rem` is the number of loop iterations left. The second component of the
result counts the calls to `fn` performed. -/
def retryAux (fn : Nat → CallRes) (canc : Nat → Bool) :
    Nat → Nat → CallRes → CallRes × Nat
  | 0, _, last => (exhaustResult last, 0)
  | rem + 1, attempt, _ =>
    let cur := fn attempt
    if isRetrySuccess cur then (cur, 1)
    else if rem = 0 then (exhaustResult cur, 1)
    else if canc attempt then ({ resp := none, err := some .retryCancelled }, 1)
    else
      let tail := retryAux fn canc rem (attempt + 1) cur
      (tail.1, tail.2 + 1)

/-- `RetryableHTTPCall` from retry.go lines 39 to 95, with the number of
calls to the wrapped operation as the second component. -/
def RetryableHTTPCall (cfg : RetryConfig) (fn : Nat → CallRes) (canc : Nat → Bool) :
    CallRes × Nat :=
  retryAux fn canc cfg.MaxAttempts 0 { resp := none, err := none }

/-- Behaviour of the downstream payment service on one attempt. -/
inductive Downstream where
  | transportFailure
  | status (code : Nat)
  deriving DecidableEq, Repr

/-- `doPaymentRequest` from the order service (src/unnamed/part_000 lines
153 to 191): a transport failure yields a nil response and an error; an
HTTP response outside 2xx is returned TOGETHER with a non-nil error
(lines 182 to 187); a 2xx response is returned with a nil error. -/
def doPaymentRequest (d : Downstream) : CallRes :=
  match d with
  | .transportFailure => { resp := none, err := some .transport }
  | .status c =>
    if c < 200 ∨ 300 ≤ c then { resp := some { statusCode := c }, err := some (.httpStatus c) }
    else { resp := some { statusCode := c }, err := none }

/-- The three circuit breaker phases. -/
inductive BreakerPhase where
  | Closed
  | Open
  | HalfOpen
  deriving DecidableEq, Repr

/-- The rolling counts consulted by the trip predicate. -/
structure BreakerCounts where
  requests : Nat
  totalFailures : Nat
  consecutiveFailures : Nat
  deriving DecidableEq, Repr

/-- Counts with every field zero (breaker reset). -/
def zeroCounts : BreakerCounts :=
  { requests := 0, totalFailures := 0, consecutiveFailures := 0 }

/-- Count update after a successful call (requests up, streak reset). -/
def BreakerCounts.onSuccess (c : BreakerCounts) : BreakerCounts :=
  { requests := c.requests + 1, totalFailures := c.totalFailures,
    consecutiveFailures := 0 }

/-- Count update after a failed call. -/
def BreakerCounts.onFailure (c : BreakerCounts) : BreakerCounts :=
  { requests := c.requests + 1, totalFailures := c.totalFailures + 1,
    consecutiveFailures := c.consecutiveFailures + 1 }

/-- `gobreaker.Settings` as configured in circuit_breaker.go lines 22 to 32.
Durations are nanosecond counts. -/
structure BreakerSettings where
  MaxRequests : Nat
  Interval : Nat
  Timeout : Nat
  ReadyToTrip : BreakerCounts → Bool

/-- The settings built by `NewCircuitBreaker`: probe budget 3, rolling
window 10s, open cooldown 30s, and the trip predicate of lines 27 to 31
(5 consecutive failures, or at least 10 requests with failure rate 0.6). -/
def defaultBreakerSettings : BreakerSettings :=
  { MaxRequests := 3, Interval := 10000000000, Timeout := 30000000000,
    ReadyToTrip := fun c =>
      decide (5 ≤ c.consecutiveFailures) ||
        (decide (10 ≤ c.requests) &&
          decide ((6 : ℚ)/10 ≤ (c.totalFailures : ℚ) / (c.requests : ℚ))) }

/-- The mutable breaker state shared across requests. -/
structure BreakerState where
  phase : BreakerPhase
  counts : BreakerCounts
  openedAt : Nat
  halfOpenInflight : Nat
  deriving DecidableEq, Repr

/-- Modelled from the spec: accounting of a call admitted while `Closed`
(spec 4.3, transition table and Accounting paragraph); on failure the trip
predicate is evaluated and may move the breaker to `Open`, recording
`opened_at`. The last component counts invocations of the operation. -/
def runClosed (stg : BreakerSettings) (now : Nat) (st : BreakerState)
    (op : Option GoErr) : Option GoErr × BreakerState × Nat :=
  match op with
  | none => (none, { st with counts := st.counts.onSuccess }, 1)
  | some e =>
    let c := st.counts.onFailure
    if stg.ReadyToTrip c then
      (some e, { phase := .Open, counts := c, openedAt := now, halfOpenInflight := 0 }, 1)
    else
      (some e, { st with counts := c }, 1)

/-- Modelled from the spec: a half-open probe (spec 4.3 transition table):
a failed probe reopens the breaker and resets `opened_at`; a successful
probe with no other probe outstanding closes the breaker and resets the
counts. -/
def runProbeHalfOpen (stg : BreakerSettings) (now : Nat) (st : BreakerState)
    (op : Option GoErr) : Option GoErr × BreakerState × Nat :=
  match op with
  | none =>
    if st.halfOpenInflight = 0 then
      (none, { phase := .Closed, counts := zeroCounts, openedAt := st.openedAt,
               halfOpenInflight := 0 }, 1)
    else
      (none, { st with counts := st.counts.onSuccess }, 1)
  | some e =>
    (some e, { phase := .Open, counts := st.counts.onFailure, openedAt := now,
               halfOpenInflight := 0 }, 1)

/-- Modelled from the spec: the `Execute` gate of the sony/gobreaker
library, which is not part of the sources of this repository (only its
caller in circuit_breaker.go is). Spec 4.3, public contract: while `Open`
with the cooldown not yet elapsed the call is rejected with `ErrOpenState`
and the operation is NOT invoked; once the cooldown has elapsed a new call
moves the breaker to `HalfOpen` and runs as a probe; while `HalfOpen` a
call beyond the probe budget is rejected. The last component of the result
counts invocations of the operation. -/
def gobreakerExecute (stg : BreakerSettings) (now : Nat) (st : BreakerState)
    (op : Option GoErr) : Option GoErr × BreakerState × Nat :=
  match st.phase with
  | .Open =>
    if now - st.openedAt < stg.Timeout then
      (some .openState, st, 0)
    else
      runProbeHalfOpen stg now
        { phase := .HalfOpen, counts := zeroCounts, openedAt := st.openedAt,
          halfOpenInflight := 0 } op
  | .HalfOpen =>
    if stg.MaxRequests ≤ st.halfOpenInflight then
      (some .tooManyProbes, st, 0)
    else
      runProbeHalfOpen stg now st op
  | .Closed => runClosed stg now st op

/-- `CircuitBreaker.Execute` from circuit_breaker.go lines 41 to 58: runs
the operation through gobreaker and wraps `ErrOpenState` into the error
`circuit breaker open: ...`; every other error is returned unchanged. -/
def CircuitBreakerExecute (stg : BreakerSettings) (now : Nat) (st : BreakerState)
    (op : Option GoErr) : Option GoErr × BreakerState × Nat :=
  match gobreakerExecute stg now st op with
  | (some .openState, st2, k) => (some (.breakerOpenWrapped .openState), st2, k)
  | r => r

/-- The bulkhead of retry.go (second part, lines 135 to 146): a weighted
semaphore with `max` permits. -/
structure Bulkhead where
  max : Nat
  deriving DecidableEq, Repr

/-- Modelled from the spec: the states of the weighted semaphore
(golang.org/x/sync/semaphore is not part of the sources of this
repository) reachable from zero permits held: an acquire is granted only
while fewer than `max` permits are held, and a release returns one held
permit. -/
inductive BhReach (max : Nat) : Nat → Prop
  | init : BhReach max 0
  | acquire (n : Nat) : BhReach max n → n < max → BhReach max (n + 1)
  | release (n : Nat) : BhReach max (n + 1) → BhReach max n

/-- Observable footprint of one `Bulkhead.Execute` run. -/
structure BhRun where
  result : Option GoErr
  finalInflight : Nat
  opCalls : Nat
  acquires : Nat
  releases : Nat
  deriving DecidableEq, Repr

/-- `Bulkhead.Execute` from retry.go lines 150 to 164, sequentialized:
`inflight` is the number of permits held by other requests when the call
starts. If the context is cancelled before acquisition (or no permit can
become available), `sem.Acquire` fails and the call returns the
`bulkhead limit reached` error without running the operation; otherwise
one permit is acquired, the operation runs, and the deferred release
returns the permit on every exit path. -/
def BulkheadExecute (b : Bulkhead) (inflight : Nat) (cancelled : Bool)
    (op : Option GoErr) : BhRun :=
  if cancelled || decide (b.max ≤ inflight) then
    { result := some .bulkheadRejected, finalInflight := inflight,
      opCalls := 0, acquires := 0, releases := 0 }
  else
    { result := op, finalInflight := inflight, opCalls := 1,
      acquires := 1, releases := 1 }

/-- `IdempotentResponse` from order-service/cmd/main.go lines 105 to 109;
`CreatedAt` is a `time.Time` embedded as nanoseconds since the epoch. -/
structure IdempotentResponse where
  OrderID : String
  Status : String
  CreatedAt : Nat
  deriving DecidableEq, Repr

/-- The `entries` map of `IdempotencyStore`, as an association list with
unique keys. -/
abbrev IdempotencyStore := List (String × IdempotentResponse)

/-- `IdempotencyStore.Get` from order-service/cmd/main.go lines 124 to 130. -/
def storeGet (s : IdempotencyStore) (key : String) : Option IdempotentResponse :=
  (s.find? (fun e => e.1 == key)).map (fun e => e.2)

/-- `IdempotencyStore.Set` from order-service/cmd/main.go lines 133 to 138:
map insert-or-overwrite. -/
def storeSet (s : IdempotencyStore) (key : String) (r : IdempotentResponse) :
    IdempotencyStore :=
  match s with
  | [] => [(key, r)]
  | e :: rest => if e.1 == key then (key, r) :: rest else e :: storeSet rest key r

/-- `time.Time.Format(time.RFC3339)` renders with second granularity; two
timestamps render to bytewise-identical strings exactly when their second
counts agree, so the formatted string is embedded as the second count of
the nanosecond timestamp. -/
def formatRFC3339 (ns : Nat) : Nat := ns / 1000000000

/-- `CreateOrderResponse` from the order service; `CreatedAt` holds the
second count of the RFC3339 rendering put into the JSON body. -/
structure CreateOrderResponse where
  OrderID : String
  Status : String
  CreatedAt : Nat
  deriving DecidableEq, Repr

/-- The per-request environment of one `CreateOrder` run: the freshly
generated UUID, the outcome of the composed payment stack together with
the number of outbound HTTP calls it performed, and the two successive
`time.Now()` readings of src/unnamed/part_000 lines 105 and 113
(nanoseconds). -/
structure OrderEnv where
  orderID : String
  paymentErr : Option GoErr
  paymentHTTPCalls : Nat
  respNow : Nat
  cacheNow : Nat
  deriving DecidableEq, Repr

/-- `persistOrder` from src/unnamed/part_000 lines 194 to 205: sleeps and
returns nil unconditionally. -/
def persistOrder : Option GoErr := none

/-- Result of one `CreateOrder` run: response or error, the store after
the run, the number of `idempotencyStore.Get` calls performed, and the
number of outbound HTTP calls performed. -/
structure OrderResult where
  resp : Option CreateOrderResponse
  err : Option GoErr
  store : IdempotencyStore
  storeGets : Nat
  httpCalls : Nat
  deriving DecidableEq, Repr

/-- The cache-miss tail of `CreateOrder` (src/unnamed/part_000 lines 85 to
118): call the payment stack, persist, build the response from one
`time.Now()` reading, and, when the key is non-empty, store an
`IdempotentResponse` carrying a SECOND `time.Now()` reading. -/
def createOrderFresh (store : IdempotencyStore) (key : String) (env : OrderEnv)
    (gets : Nat) : OrderResult :=
  match env.paymentErr with
  | some e =>
    { resp := none, err := some (.paymentFailed e), store := store,
      storeGets := gets, httpCalls := env.paymentHTTPCalls }
  | none =>
    match persistOrder with
    | some e =>
      { resp := none, err := some (.persistFailed e), store := store,
        storeGets := gets, httpCalls := env.paymentHTTPCalls }
    | none =>
      let response : CreateOrderResponse :=
        { OrderID := env.orderID, Status := "completed",
          CreatedAt := formatRFC3339 env.respNow }
      let store2 :=
        if key ≠ "" then
          storeSet store key
            { OrderID := env.orderID, Status := "completed", CreatedAt := env.cacheNow }
        else store
      { resp := some response, err := none, store := store2,
        storeGets := gets, httpCalls := env.paymentHTTPCalls }

/-- `CreateOrder` from src/unnamed/part_000 lines 61 to 119: with a
non-empty idempotency key the store is consulted first and a hit is
returned immediately (zero payment calls); otherwise the fresh path runs. -/
def CreateOrder (store : IdempotencyStore) (key : String) (env : OrderEnv) :
    OrderResult :=
  if key ≠ "" then
    match storeGet store key with
    | some cached =>
      { resp := some { OrderID := cached.OrderID, Status := cached.Status,
                       CreatedAt := formatRFC3339 cached.CreatedAt },
        err := none, store := store, storeGets := 1, httpCalls := 0 }
    | none => createOrderFresh store key env 1
  else createOrderFresh store key env 0

/-- The payment stack run against a healthy downstream (every attempt
answers 200), through `RetryableHTTPCall` with the default config. -/
def healthyPaymentRun : CallRes × Nat :=
  RetryableHTTPCall DefaultRetryConfig (fun _ => doPaymentRequest (.status 200))
    (fun _ => false)

/-! Helper lemmas about the retry loop. -/

/-- The loop body performs at most `rem` calls to the operation. -/
theorem retryAux_calls_le (fn : Nat → CallRes) (canc : Nat → Bool) :
    ∀ rem attempt last, (retryAux fn canc rem attempt last).2 ≤ rem := by
  intro rem
  induction rem with
  | zero => intro attempt last; simp [retryAux]
  | succ r ih =>
    intro attempt last
    have h := ih (attempt + 1) (fn attempt)
    simp only [retryAux]
    split
    · simp
    · split
      · simp
      · split
        · simp
        · simpa using Nat.succ_le_succ h

/-- When every attempt yields the same non-success outcome and the context
is never cancelled, the loop runs all remaining attempts and ends in the
exhaustion return. -/
theorem retryAux_const_fail (canc : Nat → Bool) (c : CallRes)
    (hc : isRetrySuccess c = false) (hnc : ∀ a, canc a = false) :
    ∀ rem attempt last, 1 ≤ rem →
      retryAux (fun _ => c) canc rem attempt last = (exhaustResult c, rem) := by
  intro rem
  induction rem with
  | zero => intro _ _ h; omega
  | succ r ih =>
    intro attempt last _
    simp only [retryAux, hc, hnc]
    cases r with
    | zero => simp
    | succ r2 =>
      have htail := ih (attempt + 1) c (by omega)
      simp [htail]

/-- `exhaustResult` is the identity on outcomes whose error is nil. -/
theorem exhaustResult_of_err_none (c : CallRes) (h : c.err = none) :
    exhaustResult c = c := by
  obtain ⟨resp, err⟩ := c
  cases err with
  | none => rfl
  | some e => simp at h

/-- An outcome carrying a response with status at least 500 or equal to 429
fails the success test of retry.go line 51 even with a nil error. -/
theorem isRetrySuccess_false_of_retryable (c : CallRes) (r : HTTPResponse)
    (herr : c.err = none) (hresp : c.resp = some r)
    (hst : 500 ≤ r.statusCode ∨ r.statusCode = 429) :
    isRetrySuccess c = false := by
  simp only [isRetrySuccess, herr, hresp, Option.isNone_none, Bool.true_and]
  rcases hst with h | h
  · simp; omega
  · simp [h]

/-- If the run reaches the sleep after attempt `attempt + d` (all attempts
up to there fail the success test, no earlier sleep was cancelled, and at
least one more attempt remains) and the context is cancelled during that
sleep, the loop returns the cancellation error having made `d + 1` calls. -/
theorem retryAux_cancel_at (fn : Nat → CallRes) (canc : Nat → Bool) :
    ∀ d rem attempt last, d + 1 < rem →
      (∀ i, attempt ≤ i → i ≤ attempt + d → isRetrySuccess (fn i) = false) →
      canc (attempt + d) = true →
      (∀ i, attempt ≤ i → i < attempt + d → canc i = false) →
      retryAux fn canc rem attempt last =
        ({ resp := none, err := some .retryCancelled }, d + 1) := by
  intro d
  induction d with
  | zero =>
    intro rem attempt last hrem hfail hcanc _
    obtain ⟨r, rfl⟩ : ∃ r, rem = r + 1 := ⟨rem - 1, by omega⟩
    have hf := hfail attempt le_rfl (by omega)
    have hc : canc attempt = true := by simpa using hcanc
    simp only [retryAux, hf, hc]
    have hr : r ≠ 0 := by omega
    simp [hr]
  | succ d2 ih =>
    intro rem attempt last hrem hfail hcanc hprev
    obtain ⟨r, rfl⟩ : ∃ r, rem = r + 1 := ⟨rem - 1, by omega⟩
    have hf := hfail attempt le_rfl (by omega)
    have hc : canc attempt = false := hprev attempt le_rfl (by omega)
    have hshift : attempt + 1 + d2 = attempt + (d2 + 1) := by omega
    have htail := ih r (attempt + 1) (fn attempt) (by omega)
      (fun i h1 h2 => hfail i (by omega) (by omega))
      (by rw [hshift]; exact hcanc)
      (fun i h1 h2 => hprev i (by omega) (by omega))
    have hr : r ≠ 0 := by omega
    simp only [retryAux, hf, hc, hr]
    simp [htail]

/-! Theorems for the claims. -/

/-- C1: the spec states that a 4xx response other than 429 is terminal and
only one HTTP call is made, and the doc comment of `RetryableHTTPCall`
states the same; but in the composed stack `doPaymentRequest` returns every
non-2xx response TOGETHER with a non-nil error, and the loop retries
whenever the error is non-nil, so a downstream that answers 400 on every
attempt is called 3 times (the full default budget) and the run ends in the
retry-exhausted error, not in a single-call terminal failure. -/
theorem stack_retries_400_C1 :
    RetryableHTTPCall DefaultRetryConfig (fun _ => doPaymentRequest (.status 400))
        (fun _ => false) =
      ({ resp := none, err := some (.retryExhausted (.httpStatus 400)) }, 3) := by
  decide

/-- C2: with idempotency key k-1 and a healthy downstream, the replayed
request returns the cached order id and only one outbound HTTP call is made
in total; but the code reads `time.Now()` twice in the first request (once
for the response body, once for the cached entry), so when the two reads
straddle a second boundary (here 0.999999999s and 1.000000001s) the first
response renders `created_at` in second 0 while the replay renders second 1:
the two `created_at` strings are not bytewise identical, refuting the claim
as stated. -/
theorem replay_divergent_created_at_C2 :
    (let r1 := CreateOrder [] "k-1"
        { orderID := "oid-1", paymentErr := healthyPaymentRun.1.err,
          paymentHTTPCalls := healthyPaymentRun.2,
          respNow := 999999999, cacheNow := 1000000001 };
     let r2 := CreateOrder r1.store "k-1"
        { orderID := "oid-2", paymentErr := healthyPaymentRun.1.err,
          paymentHTTPCalls := healthyPaymentRun.2,
          respNow := 2000000000, cacheNow := 2000000001 };
     Option.map (fun p => p.OrderID) r1.resp = some "oid-1" ∧
     Option.map (fun p => p.OrderID) r2.resp = some "oid-1" ∧
     r1.httpCalls + r2.httpCalls = 1 ∧
     Option.map (fun p => p.CreatedAt) r1.resp = some 0 ∧
     Option.map (fun p => p.CreatedAt) r2.resp = some 1 ∧
     Option.map (fun p => p.CreatedAt) r1.resp ≠
       Option.map (fun p => p.CreatedAt) r2.resp) := by
  decide

/-- C3: for every policy and every run the operation is invoked at most
`MaxAttempts` times, and against a downstream answering 500 on every
attempt with no cancellation the call returns the retry-exhausted failure
after exactly `MaxAttempts` calls. -/
theorem retry_call_bound_and_exhaustion_C3 (cfg : RetryConfig)
    (fn : Nat → CallRes) (canc : Nat → Bool) (hpos : 1 ≤ cfg.MaxAttempts) :
    (RetryableHTTPCall cfg fn canc).2 ≤ cfg.MaxAttempts ∧
    ((∀ a, fn a = doPaymentRequest (.status 500)) → (∀ a, canc a = false) →
      RetryableHTTPCall cfg fn canc =
        ({ resp := none, err := some (.retryExhausted (.httpStatus 500)) },
          cfg.MaxAttempts)) := by
  constructor
  · exact retryAux_calls_le fn canc _ 0 _
  · intro hfn hnc
    have hfx : fn = fun _ => doPaymentRequest (.status 500) := funext hfn
    rw [hfx]
    unfold RetryableHTTPCall
    rw [retryAux_const_fail canc _ (by decide) hnc cfg.MaxAttempts 0 _ hpos]
    rfl

/-- Witness for C3 at the default config against a constant-500 downstream. -/
theorem retry_call_bound_C3_witness :
    (RetryableHTTPCall DefaultRetryConfig
        (fun _ => doPaymentRequest (.status 500)) (fun _ => false)).2 ≤ 3 ∧
    RetryableHTTPCall DefaultRetryConfig
        (fun _ => doPaymentRequest (.status 500)) (fun _ => false) =
      ({ resp := none, err := some (.retryExhausted (.httpStatus 500)) }, 3) := by
  have h := retry_call_bound_and_exhaustion_C3 DefaultRetryConfig
    (fun _ => doPaymentRequest (.status 500)) (fun _ => false) (by decide)
  exact ⟨h.1, h.2 (fun _ => rfl) (fun _ => rfl)⟩

/-- C5: if the request context is cancelled during the backoff sleep that
follows attempt `a`, the executor returns the cancellation error at once:
exactly `a + 1` calls were made and no further attempt happens. -/
theorem retry_cancelled_during_backoff_C5 (cfg : RetryConfig)
    (fn : Nat → CallRes) (canc : Nat → Bool) (a : Nat)
    (ha : a + 1 < cfg.MaxAttempts)
    (hfail : ∀ i, i ≤ a → isRetrySuccess (fn i) = false)
    (hcanc : canc a = true)
    (hprev : ∀ i, i < a → canc i = false) :
    RetryableHTTPCall cfg fn canc =
      ({ resp := none, err := some .retryCancelled }, a + 1) := by
  unfold RetryableHTTPCall
  exact retryAux_cancel_at fn canc a cfg.MaxAttempts 0 _ ha
    (fun i h1 h2 => hfail i (by omega))
    (by simpa using hcanc)
    (fun i h1 h2 => hprev i (by omega))

/-- Witness for C5: cancellation during the first sleep stops the run after
one call. -/
theorem retry_cancelled_C5_witness :
    RetryableHTTPCall DefaultRetryConfig
        (fun _ => doPaymentRequest (.status 500)) (fun i => i == 0) =
      ({ resp := none, err := some .retryCancelled }, 1) := by
  exact retry_cancelled_during_backoff_C5 DefaultRetryConfig
    (fun _ => doPaymentRequest (.status 500)) (fun i => i == 0) 0
    (by decide) (fun i _ => rfl) rfl (fun i hi => absurd hi (Nat.not_lt_zero i))

/-- C9: an operation that on every attempt returns a response with status
at least 500 or equal to 429 together with a nil error exhausts all
`MaxAttempts` attempts, after which `RetryableHTTPCall` returns that last
response with a nil error: the caller observes the exhausted sequence as
success. -/
theorem retry_exhaustion_returns_response_C9 (cfg : RetryConfig)
    (canc : Nat → Bool) (c : CallRes) (r : HTTPResponse)
    (hpos : 1 ≤ cfg.MaxAttempts)
    (herr : c.err = none) (hresp : c.resp = some r)
    (hst : 500 ≤ r.statusCode ∨ r.statusCode = 429)
    (hnc : ∀ a, canc a = false) :
    RetryableHTTPCall cfg (fun _ => c) canc = (c, cfg.MaxAttempts) := by
  have hfalse := isRetrySuccess_false_of_retryable c r herr hresp hst
  unfold RetryableHTTPCall
  rw [retryAux_const_fail canc c hfalse hnc cfg.MaxAttempts 0 _ hpos,
    exhaustResult_of_err_none c herr]

/-- Witness for C9: a constant 500-response operation with nil errors makes
the default config return the 500 response with a nil error after 3 calls. -/
theorem retry_exhaustion_C9_witness :
    RetryableHTTPCall DefaultRetryConfig
        (fun _ => ({ resp := some { statusCode := 500 }, err := none } : CallRes))
        (fun _ => false) =
      ({ resp := some { statusCode := 500 }, err := none }, 3) := by
  exact retry_exhaustion_returns_response_C9 DefaultRetryConfig (fun _ => false)
    { resp := some { statusCode := 500 }, err := none } { statusCode := 500 }
    (by decide) rfl rfl (Or.inl (by decide)) (fun _ => rfl)

/-- C4: while the breaker is `Open` and the open cooldown has not elapsed,
`Execute` returns the wrapped breaker-open error, the state is unchanged,
and the wrapped operation is invoked zero times. -/
theorem breaker_open_rejects_C4 (stg : BreakerSettings) (now : Nat)
    (st : BreakerState) (op : Option GoErr)
    (hphase : st.phase = .Open)
    (hcool : now - st.openedAt < stg.Timeout) :
    CircuitBreakerExecute stg now st op =
      (some (.breakerOpenWrapped .openState), st, 0) := by
  unfold CircuitBreakerExecute gobreakerExecute
  rw [hphase]
  simp [hcool]

/-- Witness for C4: an open breaker 29s into its 30s cooldown rejects the
call without running the operation. -/
theorem breaker_open_C4_witness :
    CircuitBreakerExecute defaultBreakerSettings 29000001000
        { phase := .Open,
          counts := { requests := 5, totalFailures := 5, consecutiveFailures := 5 },
          openedAt := 1000, halfOpenInflight := 0 } none =
      (some (.breakerOpenWrapped .openState),
        { phase := .Open,
          counts := { requests := 5, totalFailures := 5, consecutiveFailures := 5 },
          openedAt := 1000, halfOpenInflight := 0 }, 0) := by
  exact breaker_open_rejects_C4 defaultBreakerSettings 29000001000
    { phase := .Open,
      counts := { requests := 5, totalFailures := 5, consecutiveFailures := 5 },
      openedAt := 1000, halfOpenInflight := 0 } none rfl (by decide)

/-- C6: for every attempt and policy with a jitter fraction in [0, 1], a
multiplier at least 1 and non-negative backoff bounds, the computed delay
lies between nominal times (1 - jitter) and nominal times (1 + jitter),
where nominal is the exponential backoff capped at `MaxBackoff`, and the
delay is never negative. -/
theorem backoff_jitter_bounds_C6 (cfg : RetryConfig) (attempt : Nat) (r : ℚ)
    (hr0 : 0 ≤ r) (hr1 : r ≤ 1)
    (hinit : 0 ≤ cfg.InitialBackoff) (hmult : 1 ≤ cfg.BackoffMultiple)
    (hmax : 0 ≤ cfg.MaxBackoff)
    (hj0 : 0 ≤ cfg.JitterFraction) (hj1 : cfg.JitterFraction ≤ 1) :
    nominalBackoff cfg attempt * (1 - cfg.JitterFraction) ≤
        calculateBackoff cfg attempt r ∧
    calculateBackoff cfg attempt r ≤
        nominalBackoff cfg attempt * (1 + cfg.JitterFraction) ∧
    0 ≤ calculateBackoff cfg attempt r := by
  have hraw : 0 ≤ rawBackoff cfg attempt := by
    unfold rawBackoff
    exact mul_nonneg hinit (pow_nonneg (by linarith) attempt)
  have hnom : 0 ≤ nominalBackoff cfg attempt := by
    unfold nominalBackoff
    split
    · exact hmax
    · exact hraw
  have key : calculateBackoff cfg attempt r =
      if nominalBackoff cfg attempt +
          (r * 2 * (nominalBackoff cfg attempt * cfg.JitterFraction) -
            nominalBackoff cfg attempt * cfg.JitterFraction) < 0 then 0
      else nominalBackoff cfg attempt +
          (r * 2 * (nominalBackoff cfg attempt * cfg.JitterFraction) -
            nominalBackoff cfg attempt * cfg.JitterFraction) := rfl
  rw [key]
  have hrnj : 0 ≤ r * (nominalBackoff cfg attempt * cfg.JitterFraction) :=
    mul_nonneg hr0 (mul_nonneg hnom hj0)
  have hnj : 0 ≤ nominalBackoff cfg attempt * cfg.JitterFraction :=
    mul_nonneg hnom hj0
  split
  case isTrue h =>
    refine ⟨by nlinarith, by nlinarith, le_rfl⟩
  case isFalse h =>
    push_neg at h
    refine ⟨by nlinarith, by nlinarith, h⟩

/-- Witness for C6 at the default config, attempt 1, random draw 1/2. -/
theorem backoff_jitter_C6_witness :
    nominalBackoff DefaultRetryConfig 1 * (1 - DefaultRetryConfig.JitterFraction) ≤
        calculateBackoff DefaultRetryConfig 1 (1/2) ∧
    calculateBackoff DefaultRetryConfig 1 (1/2) ≤
        nominalBackoff DefaultRetryConfig 1 * (1 + DefaultRetryConfig.JitterFraction) ∧
    0 ≤ calculateBackoff DefaultRetryConfig 1 (1/2) := by
  exact backoff_jitter_bounds_C6 DefaultRetryConfig 1 (1/2) (by norm_num)
    (by norm_num) (by norm_num [DefaultRetryConfig])
    (by norm_num [DefaultRetryConfig]) (by norm_num [DefaultRetryConfig])
    (by norm_num [DefaultRetryConfig]) (by norm_num [DefaultRetryConfig])

/-- C7: every semaphore state reachable through granted acquires and
releases holds at most `max` permits; a run that acquires a permit releases
it exactly once and leaves the permit count unchanged; on cancellation
before acquisition the operation is not run and the rejection error is
returned. -/
theorem bulkhead_invariants_C7 (b : Bulkhead) (n inflight : Nat)
    (cancelled : Bool) (op : Option GoErr) (hreach : BhReach b.max n) :
    n ≤ b.max ∧
    (cancelled = true →
      BulkheadExecute b inflight cancelled op =
        { result := some .bulkheadRejected, finalInflight := inflight,
          opCalls := 0, acquires := 0, releases := 0 }) ∧
    (cancelled = false → inflight < b.max →
      BulkheadExecute b inflight cancelled op =
        { result := op, finalInflight := inflight, opCalls := 1,
          acquires := 1, releases := 1 }) := by
  have hle : n ≤ b.max := by
    induction hreach with
    | init => exact Nat.zero_le _
    | acquire m _ hlt _ => exact hlt
    | release m _ ih => omega
  refine ⟨hle, ?_, ?_⟩
  · intro hc
    subst hc
    simp [BulkheadExecute]
  · intro hc hlt
    subst hc
    have hn : ¬ b.max ≤ inflight := by omega
    simp [BulkheadExecute, hn]

/-- Witness for C7 at the configured bulkhead of 10 permits. -/
theorem bulkhead_C7_witness :
    (0 : Nat) ≤ 10 ∧
    BulkheadExecute { max := 10 } 3 true (some .transport) =
      { result := some .bulkheadRejected, finalInflight := 3, opCalls := 0,
        acquires := 0, releases := 0 } ∧
    BulkheadExecute { max := 10 } 3 false none =
      { result := none, finalInflight := 3, opCalls := 1, acquires := 1,
        releases := 1 } := by
  have h1 := bulkhead_invariants_C7 { max := 10 } 0 3 true (some .transport)
    BhReach.init
  have h2 := bulkhead_invariants_C7 { max := 10 } 0 3 false none BhReach.init
  exact ⟨h1.1, h1.2.1 rfl, h2.2.2 rfl (by decide)⟩

/-- C8: a request whose idempotency key is the empty string neither reads
from nor writes to the idempotency store: zero `Get` calls are performed
and the store after the run equals the store before it. -/
theorem empty_key_no_cache_C8 (store : IdempotencyStore) (env : OrderEnv) :
    (CreateOrder store "" env).storeGets = 0 ∧
    (CreateOrder store "" env).store = store := by
  obtain ⟨oid, pe, pc, n1, n2⟩ := env
  cases pe <;> simp [CreateOrder, createOrderFresh, persistOrder]

/-- C10: the idempotency store is written only on runs in which the payment
stack and the persist step both succeeded (any change to the store implies
a nil payment error, a nil persist error and a nil overall error), and
every run that returns an error leaves the whole store unchanged. -/
theorem cache_write_atomicity_C10 (store : IdempotencyStore) (key : String)
    (env : OrderEnv) :
    ((CreateOrder store key env).err ≠ none →
      (CreateOrder store key env).store = store) ∧
    ((CreateOrder store key env).store ≠ store →
      env.paymentErr = none ∧ persistOrder = none ∧
        (CreateOrder store key env).err = none) := by
  obtain ⟨oid, pe, pc, n1, n2⟩ := env
  by_cases hk : key = ""
  · subst hk
    cases pe <;> simp [CreateOrder, createOrderFresh, persistOrder]
  · cases hget : storeGet store key with
    | some cached => constructor <;> simp [CreateOrder, hk, hget]
    | none =>
      cases pe <;> simp [CreateOrder, createOrderFresh, persistOrder, hk, hget]

/-- Witness for C10: a run whose payment stack fails leaves the store
unchanged. -/
theorem cache_write_C10_witness :
    (CreateOrder [] "k-err"
        { orderID := "o1", paymentErr := some .transport, paymentHTTPCalls := 3,
          respNow := 0, cacheNow := 0 }).store = ([] : IdempotencyStore) := by
  exact (cache_write_atomicity_C10 [] "k-err"
    { orderID := "o1", paymentErr := some .transport, paymentHTTPCalls := 3,
      respNow := 0, cacheNow := 0 }).1 (by decide)

end RelOrders
